import Mathlib

/-
Verification of the CIEDE2000 color-difference implementation.

The source repository provides two textually identical implementations of
the CIEDE2000 distance (a static method in src/ciede2000.py and a
classmethod in src/python/ciede2000.py) together with two BGR-to-Lab
conversions.  The Python code computes with real-valued math primitives
(sqrt, atan2, sin, cos, exp); the shallow embedding below models every
intermediate of the pipeline as a real number, one Lean definition per
named intermediate of the source, in source order.
-/

noncomputable section

open Real

/-- A Lab color: an ordered triple of real numbers, mirroring the Python
tuple (L, a, b). -/
structure Lab where
  L : ℝ
  a : ℝ
  b : ℝ

/-- Embedding of math.atan2: atan2 y x is the angle of the point (x, y),
in (-pi, pi], with atan2 0 0 = 0, exactly the principal argument of the
complex number x + y*i. -/
def atan2 (y x : ℝ) : ℝ := Complex.arg ⟨x, y⟩

namespace CIEDE2000

/-- Constant of formula (17): 25 ** 7. -/
def K_25_7 : ℝ := 25 ^ 7

/-- Formula (2): chroma of the first color in the original ab plane. -/
def C1_ab (lab1 : Lab) : ℝ := Real.sqrt (lab1.a ^ 2 + lab1.b ^ 2)

/-- Formula (2): chroma of the second color in the original ab plane. -/
def C2_ab (lab2 : Lab) : ℝ := Real.sqrt (lab2.a ^ 2 + lab2.b ^ 2)

/-- Formula (3): average of the two ab-plane chromas. -/
def C_ab_average (lab1 lab2 : Lab) : ℝ := (C1_ab lab1 + C2_ab lab2) / 2

/-- Formula (4): the weighting factor G. -/
def G (lab1 lab2 : Lab) : ℝ :=
  0.5 * (1 - Real.sqrt (C_ab_average lab1 lab2 ^ 7 /
    (C_ab_average lab1 lab2 ^ 7 + K_25_7)))

/-- Formula (5): adjusted a channel of the first color. -/
def a1_ (lab1 lab2 : Lab) : ℝ := (1 + G lab1 lab2) * lab1.a

/-- Formula (5): adjusted a channel of the second color. -/
def a2_ (lab1 lab2 : Lab) : ℝ := (1 + G lab1 lab2) * lab2.a

/-- Formula (6): adjusted chroma of the first color. -/
def C1_ (lab1 lab2 : Lab) : ℝ := Real.sqrt (a1_ lab1 lab2 ^ 2 + lab1.b ^ 2)

/-- Formula (6): adjusted chroma of the second color. -/
def C2_ (lab1 lab2 : Lab) : ℝ := Real.sqrt (a2_ lab1 lab2 ^ 2 + lab2.b ^ 2)

/-- Formula (7): adjusted hue angle of the first color. -/
def h1_ (lab1 lab2 : Lab) : ℝ :=
  if lab1.b = 0 ∧ a1_ lab1 lab2 = 0 then 0
  else if 0 ≤ a1_ lab1 lab2 then atan2 lab1.b (a1_ lab1 lab2) + 2 * π
  else atan2 lab1.b (a1_ lab1 lab2)

/-- Formula (7): adjusted hue angle of the second color. -/
def h2_ (lab1 lab2 : Lab) : ℝ :=
  if lab2.b = 0 ∧ a2_ lab1 lab2 = 0 then 0
  else if 0 ≤ a2_ lab1 lab2 then atan2 lab2.b (a2_ lab1 lab2) + 2 * π
  else atan2 lab2.b (a2_ lab1 lab2)

/-- Formula (8): lightness difference. -/
def dL_ (lab1 lab2 : Lab) : ℝ := lab2.L - lab1.L

/-- Formula (9): adjusted chroma difference. -/
def dC_ (lab1 lab2 : Lab) : ℝ := C2_ lab1 lab2 - C1_ lab1 lab2

/-- Formula (10): hue difference, forced to 0 on a zero chroma product,
otherwise corrected once by -2*pi or +2*pi when it leaves [-pi, pi]. -/
def dh_ (lab1 lab2 : Lab) : ℝ :=
  if C1_ lab1 lab2 * C2_ lab1 lab2 = 0 then 0
  else if h2_ lab1 lab2 - h1_ lab1 lab2 > π then
    h2_ lab1 lab2 - h1_ lab1 lab2 - 2 * π
  else if h2_ lab1 lab2 - h1_ lab1 lab2 < -π then
    h2_ lab1 lab2 - h1_ lab1 lab2 + 2 * π
  else h2_ lab1 lab2 - h1_ lab1 lab2

/-- Formula (11): chroma-weighted hue difference. -/
def dH_ (lab1 lab2 : Lab) : ℝ :=
  2 * Real.sqrt (C1_ lab1 lab2 * C2_ lab1 lab2) * Real.sin (dh_ lab1 lab2 / 2)

/-- Formula (12): average lightness. -/
def L_average_ (lab1 lab2 : Lab) : ℝ := (lab1.L + lab2.L) / 2

/-- Formula (13): average adjusted chroma. -/
def C_average_ (lab1 lab2 : Lab) : ℝ := (C1_ lab1 lab2 + C2_ lab1 lab2) / 2

/-- Formula (14): mean hue angle, a four-way branch on the hue gap and sum,
falling back to the plain sum when the chroma product is zero. -/
def h_average_ (lab1 lab2 : Lab) : ℝ :=
  if |h1_ lab1 lab2 - h2_ lab1 lab2| ≤ π ∧
      C1_ lab1 lab2 * C2_ lab1 lab2 ≠ 0 then
    (h1_ lab1 lab2 + h2_ lab1 lab2) / 2
  else if |h1_ lab1 lab2 - h2_ lab1 lab2| > π ∧
      h1_ lab1 lab2 + h2_ lab1 lab2 < 2 * π ∧
      C1_ lab1 lab2 * C2_ lab1 lab2 ≠ 0 then
    (h1_ lab1 lab2 + h2_ lab1 lab2) / 2 + π
  else if |h1_ lab1 lab2 - h2_ lab1 lab2| > π ∧
      h1_ lab1 lab2 + h2_ lab1 lab2 ≥ 2 * π ∧
      C1_ lab1 lab2 * C2_ lab1 lab2 ≠ 0 then
    (h1_ lab1 lab2 + h2_ lab1 lab2) / 2 - π
  else h1_ lab1 lab2 + h2_ lab1 lab2

/-- Formula (15): the hue rotation term T. -/
def T (lab1 lab2 : Lab) : ℝ :=
  1 - 0.17 * Real.cos (h_average_ lab1 lab2 - π / 6)
    + 0.24 * Real.cos (2 * h_average_ lab1 lab2)
    + 0.32 * Real.cos (3 * h_average_ lab1 lab2 + π / 30)
    - 0.2 * Real.cos (4 * h_average_ lab1 lab2 - 63 * π / 180)

/-- Formula (16): mean hue angle in degrees, with the single conditional
+360 or -360 correction of the source. -/
def h_average_deg_ (lab1 lab2 : Lab) : ℝ :=
  if h_average_ lab1 lab2 * 180 / π < 0 then
    h_average_ lab1 lab2 * 180 / π + 360
  else if h_average_ lab1 lab2 * 180 / π > 360 then
    h_average_ lab1 lab2 * 180 / π - 360
  else h_average_ lab1 lab2 * 180 / π

/-- Formula (16): the Gaussian bump dTheta. -/
def dTheta (lab1 lab2 : Lab) : ℝ :=
  30 * Real.exp (-(((h_average_deg_ lab1 lab2 - 275) / 25) ^ 2))

/-- Formula (17): the rotation magnitude R_C. -/
def R_C (lab1 lab2 : Lab) : ℝ :=
  2 * Real.sqrt (C_average_ lab1 lab2 ^ 7 / (C_average_ lab1 lab2 ^ 7 + K_25_7))

/-- Formula (18): squared offset of the average lightness from 50. -/
def L_50 (lab1 lab2 : Lab) : ℝ := (L_average_ lab1 lab2 - 50) ^ 2

/-- Formula (18): the lightness weighting function S_L. -/
def S_L (lab1 lab2 : Lab) : ℝ :=
  1 + 0.015 * L_50 lab1 lab2 / Real.sqrt (20 + L_50 lab1 lab2)

/-- Formula (19): the chroma weighting function S_C. -/
def S_C (lab1 lab2 : Lab) : ℝ := 1 + 0.045 * C_average_ lab1 lab2

/-- Formula (20): the hue weighting function S_H. -/
def S_H (lab1 lab2 : Lab) : ℝ := 1 + 0.015 * C_average_ lab1 lab2 * T lab1 lab2

/-- Formula (21): the rotation interaction term R_T. -/
def R_T (lab1 lab2 : Lab) : ℝ :=
  -Real.sin (dTheta lab1 lab2 * π / 90) * R_C lab1 lab2

/-- Formula (22): parametric weight for lightness, fixed at 1. -/
def k_L : ℝ := 1

/-- Formula (22): parametric weight for chroma, fixed at 1. -/
def k_C : ℝ := 1

/-- Formula (22): parametric weight for hue, fixed at 1. -/
def k_H : ℝ := 1

/-- Formula (22): weighted lightness difference. -/
def f_L (lab1 lab2 : Lab) : ℝ := dL_ lab1 lab2 / k_L / S_L lab1 lab2

/-- Formula (22): weighted chroma difference. -/
def f_C (lab1 lab2 : Lab) : ℝ := dC_ lab1 lab2 / k_C / S_C lab1 lab2

/-- Formula (22): weighted hue difference. -/
def f_H (lab1 lab2 : Lab) : ℝ := dH_ lab1 lab2 / k_H / S_H lab1 lab2

/-- Formula (22): the argument of the final square root. -/
def delta_E_00_arg (lab1 lab2 : Lab) : ℝ :=
  f_L lab1 lab2 ^ 2 + f_C lab1 lab2 ^ 2 + f_H lab1 lab2 ^ 2 +
    R_T lab1 lab2 * f_C lab1 lab2 * f_H lab1 lab2

/-- Formula (22): the CIEDE2000 distance delta_E_00, embedding the static
method distance of src/ciede2000.py. -/
def distance (lab1 lab2 : Lab) : ℝ := Real.sqrt (delta_E_00_arg lab1 lab2)

/-- Per-channel XYZ-to-Lab transform of bgr_to_lab in src/ciede2000.py:
above the threshold the source computes channel ** 1 / 3, which Python
parses as (channel ** 1) / 3. -/
def xyz_to_lab_channel (channel : ℝ) : ℝ :=
  if channel > 0.008856 then channel ^ 1 / 3
  else 7.787 * channel + 16 / 116

/-- Per-channel XYZ-to-Lab transform of bgr2lab in src/ciede2000.py, which
uses the floating literal 0.3333333333333333 as the exponent. -/
def bgr2lab_xyz_channel (value : ℝ) : ℝ :=
  if value > 0.008856 then value ^ (0.3333333333333333 : ℝ)
  else 7.787 * value + 16 / 116

end CIEDE2000

namespace Python

/-- Constant of formula (17) in src/python/ciede2000.py, the class
attribute K_25_7 = 25 ** 7. -/
def K_25_7 : ℝ := 25 ^ 7

/-- Formula (2) of src/python/ciede2000.py. -/
def C1_ab (lab1 : Lab) : ℝ := Real.sqrt (lab1.a ^ 2 + lab1.b ^ 2)

/-- Formula (2) of src/python/ciede2000.py. -/
def C2_ab (lab2 : Lab) : ℝ := Real.sqrt (lab2.a ^ 2 + lab2.b ^ 2)

/-- Formula (3) of src/python/ciede2000.py. -/
def C_ab_average (lab1 lab2 : Lab) : ℝ := (C1_ab lab1 + C2_ab lab2) / 2

/-- Formula (4) of src/python/ciede2000.py. -/
def G (lab1 lab2 : Lab) : ℝ :=
  0.5 * (1 - Real.sqrt (C_ab_average lab1 lab2 ^ 7 /
    (C_ab_average lab1 lab2 ^ 7 + K_25_7)))

/-- Formula (5) of src/python/ciede2000.py. -/
def a1_ (lab1 lab2 : Lab) : ℝ := (1 + G lab1 lab2) * lab1.a

/-- Formula (5) of src/python/ciede2000.py. -/
def a2_ (lab1 lab2 : Lab) : ℝ := (1 + G lab1 lab2) * lab2.a

/-- Formula (6) of src/python/ciede2000.py. -/
def C1_ (lab1 lab2 : Lab) : ℝ := Real.sqrt (a1_ lab1 lab2 ^ 2 + lab1.b ^ 2)

/-- Formula (6) of src/python/ciede2000.py. -/
def C2_ (lab1 lab2 : Lab) : ℝ := Real.sqrt (a2_ lab1 lab2 ^ 2 + lab2.b ^ 2)

/-- Formula (7) of src/python/ciede2000.py. -/
def h1_ (lab1 lab2 : Lab) : ℝ :=
  if lab1.b = 0 ∧ a1_ lab1 lab2 = 0 then 0
  else if 0 ≤ a1_ lab1 lab2 then atan2 lab1.b (a1_ lab1 lab2) + 2 * π
  else atan2 lab1.b (a1_ lab1 lab2)

/-- Formula (7) of src/python/ciede2000.py. -/
def h2_ (lab1 lab2 : Lab) : ℝ :=
  if lab2.b = 0 ∧ a2_ lab1 lab2 = 0 then 0
  else if 0 ≤ a2_ lab1 lab2 then atan2 lab2.b (a2_ lab1 lab2) + 2 * π
  else atan2 lab2.b (a2_ lab1 lab2)

/-- Formula (8) of src/python/ciede2000.py. -/
def dL_ (lab1 lab2 : Lab) : ℝ := lab2.L - lab1.L

/-- Formula (9) of src/python/ciede2000.py. -/
def dC_ (lab1 lab2 : Lab) : ℝ := C2_ lab1 lab2 - C1_ lab1 lab2

/-- Formula (10) of src/python/ciede2000.py. -/
def dh_ (lab1 lab2 : Lab) : ℝ :=
  if C1_ lab1 lab2 * C2_ lab1 lab2 = 0 then 0
  else if h2_ lab1 lab2 - h1_ lab1 lab2 > π then
    h2_ lab1 lab2 - h1_ lab1 lab2 - 2 * π
  else if h2_ lab1 lab2 - h1_ lab1 lab2 < -π then
    h2_ lab1 lab2 - h1_ lab1 lab2 + 2 * π
  else h2_ lab1 lab2 - h1_ lab1 lab2

/-- Formula (11) of src/python/ciede2000.py. -/
def dH_ (lab1 lab2 : Lab) : ℝ :=
  2 * Real.sqrt (C1_ lab1 lab2 * C2_ lab1 lab2) * Real.sin (dh_ lab1 lab2 / 2)

/-- Formula (12) of src/python/ciede2000.py. -/
def L_average_ (lab1 lab2 : Lab) : ℝ := (lab1.L + lab2.L) / 2

/-- Formula (13) of src/python/ciede2000.py. -/
def C_average_ (lab1 lab2 : Lab) : ℝ := (C1_ lab1 lab2 + C2_ lab1 lab2) / 2

/-- Formula (14) of src/python/ciede2000.py. -/
def h_average_ (lab1 lab2 : Lab) : ℝ :=
  if |h1_ lab1 lab2 - h2_ lab1 lab2| ≤ π ∧
      C1_ lab1 lab2 * C2_ lab1 lab2 ≠ 0 then
    (h1_ lab1 lab2 + h2_ lab1 lab2) / 2
  else if |h1_ lab1 lab2 - h2_ lab1 lab2| > π ∧
      h1_ lab1 lab2 + h2_ lab1 lab2 < 2 * π ∧
      C1_ lab1 lab2 * C2_ lab1 lab2 ≠ 0 then
    (h1_ lab1 lab2 + h2_ lab1 lab2) / 2 + π
  else if |h1_ lab1 lab2 - h2_ lab1 lab2| > π ∧
      h1_ lab1 lab2 + h2_ lab1 lab2 ≥ 2 * π ∧
      C1_ lab1 lab2 * C2_ lab1 lab2 ≠ 0 then
    (h1_ lab1 lab2 + h2_ lab1 lab2) / 2 - π
  else h1_ lab1 lab2 + h2_ lab1 lab2

/-- Formula (15) of src/python/ciede2000.py. -/
def T (lab1 lab2 : Lab) : ℝ :=
  1 - 0.17 * Real.cos (h_average_ lab1 lab2 - π / 6)
    + 0.24 * Real.cos (2 * h_average_ lab1 lab2)
    + 0.32 * Real.cos (3 * h_average_ lab1 lab2 + π / 30)
    - 0.2 * Real.cos (4 * h_average_ lab1 lab2 - 63 * π / 180)

/-- Formula (16) of src/python/ciede2000.py. -/
def h_average_deg_ (lab1 lab2 : Lab) : ℝ :=
  if h_average_ lab1 lab2 * 180 / π < 0 then
    h_average_ lab1 lab2 * 180 / π + 360
  else if h_average_ lab1 lab2 * 180 / π > 360 then
    h_average_ lab1 lab2 * 180 / π - 360
  else h_average_ lab1 lab2 * 180 / π

/-- Formula (16) of src/python/ciede2000.py. -/
def dTheta (lab1 lab2 : Lab) : ℝ :=
  30 * Real.exp (-(((h_average_deg_ lab1 lab2 - 275) / 25) ^ 2))

/-- Formula (17) of src/python/ciede2000.py. -/
def R_C (lab1 lab2 : Lab) : ℝ :=
  2 * Real.sqrt (C_average_ lab1 lab2 ^ 7 / (C_average_ lab1 lab2 ^ 7 + K_25_7))

/-- Formula (18) of src/python/ciede2000.py. -/
def L_50 (lab1 lab2 : Lab) : ℝ := (L_average_ lab1 lab2 - 50) ^ 2

/-- Formula (18) of src/python/ciede2000.py. -/
def S_L (lab1 lab2 : Lab) : ℝ :=
  1 + 0.015 * L_50 lab1 lab2 / Real.sqrt (20 + L_50 lab1 lab2)

/-- Formula (19) of src/python/ciede2000.py. -/
def S_C (lab1 lab2 : Lab) : ℝ := 1 + 0.045 * C_average_ lab1 lab2

/-- Formula (20) of src/python/ciede2000.py. -/
def S_H (lab1 lab2 : Lab) : ℝ := 1 + 0.015 * C_average_ lab1 lab2 * T lab1 lab2

/-- Formula (21) of src/python/ciede2000.py. -/
def R_T (lab1 lab2 : Lab) : ℝ :=
  -Real.sin (dTheta lab1 lab2 * π / 90) * R_C lab1 lab2

/-- Formula (22) of src/python/ciede2000.py: parametric weights. -/
def k_L : ℝ := 1

/-- Formula (22) of src/python/ciede2000.py: parametric weights. -/
def k_C : ℝ := 1

/-- Formula (22) of src/python/ciede2000.py: parametric weights. -/
def k_H : ℝ := 1

/-- Formula (22) of src/python/ciede2000.py. -/
def f_L (lab1 lab2 : Lab) : ℝ := dL_ lab1 lab2 / k_L / S_L lab1 lab2

/-- Formula (22) of src/python/ciede2000.py. -/
def f_C (lab1 lab2 : Lab) : ℝ := dC_ lab1 lab2 / k_C / S_C lab1 lab2

/-- Formula (22) of src/python/ciede2000.py. -/
def f_H (lab1 lab2 : Lab) : ℝ := dH_ lab1 lab2 / k_H / S_H lab1 lab2

/-- Formula (22) of src/python/ciede2000.py. -/
def delta_E_00_arg (lab1 lab2 : Lab) : ℝ :=
  f_L lab1 lab2 ^ 2 + f_C lab1 lab2 ^ 2 + f_H lab1 lab2 ^ 2 +
    R_T lab1 lab2 * f_C lab1 lab2 * f_H lab1 lab2

/-- Formula (22): the CIEDE2000 distance, embedding the classmethod
distance of src/python/ciede2000.py. -/
def distance (lab1 lab2 : Lab) : ℝ := Real.sqrt (delta_E_00_arg lab1 lab2)

end Python

/-- C10: the static method distance in src/ciede2000.py and the classmethod
distance in src/python/ciede2000.py are extensionally equal: they return
the same value on every pair of Lab triples. -/
theorem distance_eq_python_distance :
    ∀ lab1 lab2 : Lab, CIEDE2000.distance lab1 lab2 = Python.distance lab1 lab2 :=
  fun _ _ => rfl

/-- C4: the CIEDE2000 distance is non-negative on every pair of Lab triples. -/
theorem distance_nonneg :
    ∀ lab1 lab2 : Lab, 0 ≤ CIEDE2000.distance lab1 lab2 :=
  fun lab1 lab2 => Real.sqrt_nonneg (CIEDE2000.delta_E_00_arg lab1 lab2)

/-- C9: in bgr_to_lab the per-channel transform above the threshold 0.008856
is NOT a cube root: the source text channel ** 1 / 3 parses as division by 3
of channel ** 1.  At the normalized channel value 1 the code yields 1 / 3
while a cube root, exponent 1 / 3, yields 1. -/
theorem xyz_to_lab_channel_not_cube_root :
    CIEDE2000.xyz_to_lab_channel 1 = 1 / 3 ∧
      (1 : ℝ) ^ ((1 : ℝ) / 3) = 1 ∧ (1 : ℝ) / 3 ≠ 1 := by
  refine ⟨?_, ?_, by norm_num⟩
  · unfold CIEDE2000.xyz_to_lab_channel
    norm_num
  · exact Real.one_rpow _

namespace CIEDE2000

theorem C_ab_average_comm (l1 l2 : Lab) : C_ab_average l2 l1 = C_ab_average l1 l2 := by
  unfold C_ab_average C1_ab C2_ab
  ring

theorem G_comm (l1 l2 : Lab) : G l2 l1 = G l1 l2 := by
  unfold G
  rw [C_ab_average_comm]

theorem a1__swap (l1 l2 : Lab) : a1_ l2 l1 = a2_ l1 l2 := by
  unfold a1_ a2_
  rw [G_comm]

theorem a2__swap (l1 l2 : Lab) : a2_ l2 l1 = a1_ l1 l2 := by
  unfold a1_ a2_
  rw [G_comm]

theorem C1__swap (l1 l2 : Lab) : C1_ l2 l1 = C2_ l1 l2 := by
  unfold C1_ C2_
  rw [a1__swap]

theorem C2__swap (l1 l2 : Lab) : C2_ l2 l1 = C1_ l1 l2 := by
  unfold C1_ C2_
  rw [a2__swap]

theorem h1__swap (l1 l2 : Lab) : h1_ l2 l1 = h2_ l1 l2 := by
  unfold h1_ h2_
  rw [a1__swap]

theorem h2__swap (l1 l2 : Lab) : h2_ l2 l1 = h1_ l1 l2 := by
  unfold h1_ h2_
  rw [a2__swap]

theorem dh__swap (l1 l2 : Lab) : dh_ l2 l1 = -dh_ l1 l2 := by
  unfold dh_
  rw [C1__swap l1 l2, C2__swap l1 l2, h1__swap l1 l2, h2__swap l1 l2,
    mul_comm (C2_ l1 l2) (C1_ l1 l2)]
  split_ifs <;> linarith [Real.pi_pos]

theorem dH__swap (l1 l2 : Lab) : dH_ l2 l1 = -dH_ l1 l2 := by
  unfold dH_
  rw [C1__swap l1 l2, C2__swap l1 l2, mul_comm (C2_ l1 l2) (C1_ l1 l2),
    dh__swap l1 l2, neg_div, Real.sin_neg]
  ring

theorem L_average__comm (l1 l2 : Lab) : L_average_ l2 l1 = L_average_ l1 l2 := by
  unfold L_average_
  ring

theorem C_average__comm (l1 l2 : Lab) : C_average_ l2 l1 = C_average_ l1 l2 := by
  unfold C_average_
  rw [C1__swap l1 l2, C2__swap l1 l2]
  ring

theorem h_average__comm (l1 l2 : Lab) : h_average_ l2 l1 = h_average_ l1 l2 := by
  unfold h_average_
  rw [h1__swap l1 l2, h2__swap l1 l2, abs_sub_comm (h2_ l1 l2) (h1_ l1 l2),
    add_comm (h2_ l1 l2) (h1_ l1 l2), C1__swap l1 l2, C2__swap l1 l2,
    mul_comm (C2_ l1 l2) (C1_ l1 l2)]

theorem T_comm (l1 l2 : Lab) : T l2 l1 = T l1 l2 := by
  unfold T
  rw [h_average__comm]

theorem h_average_deg__comm (l1 l2 : Lab) :
    h_average_deg_ l2 l1 = h_average_deg_ l1 l2 := by
  unfold h_average_deg_
  rw [h_average__comm]

theorem dTheta_comm (l1 l2 : Lab) : dTheta l2 l1 = dTheta l1 l2 := by
  unfold dTheta
  rw [h_average_deg__comm]

theorem R_C_comm (l1 l2 : Lab) : R_C l2 l1 = R_C l1 l2 := by
  unfold R_C
  rw [C_average__comm]

theorem S_L_comm (l1 l2 : Lab) : S_L l2 l1 = S_L l1 l2 := by
  unfold S_L L_50
  rw [L_average__comm]

theorem S_C_comm (l1 l2 : Lab) : S_C l2 l1 = S_C l1 l2 := by
  unfold S_C
  rw [C_average__comm]

theorem S_H_comm (l1 l2 : Lab) : S_H l2 l1 = S_H l1 l2 := by
  unfold S_H
  rw [C_average__comm, T_comm]

theorem R_T_comm (l1 l2 : Lab) : R_T l2 l1 = R_T l1 l2 := by
  unfold R_T
  rw [dTheta_comm, R_C_comm]

theorem f_L_swap (l1 l2 : Lab) : f_L l2 l1 = -f_L l1 l2 := by
  unfold f_L dL_
  rw [S_L_comm]
  ring

theorem f_C_swap (l1 l2 : Lab) : f_C l2 l1 = -f_C l1 l2 := by
  unfold f_C dC_
  rw [C1__swap l1 l2, C2__swap l1 l2, S_C_comm]
  ring

theorem f_H_swap (l1 l2 : Lab) : f_H l2 l1 = -f_H l1 l2 := by
  unfold f_H
  rw [dH__swap, S_H_comm]
  ring

theorem delta_E_00_arg_comm (l1 l2 : Lab) :
    delta_E_00_arg l2 l1 = delta_E_00_arg l1 l2 := by
  unfold delta_E_00_arg
  rw [f_L_swap, f_C_swap, f_H_swap, R_T_comm]
  ring

end CIEDE2000

/-- C2: the CIEDE2000 distance is symmetric in its two arguments, exactly,
on every pair of Lab triples. -/
theorem distance_symm :
    ∀ lab1 lab2 : Lab, CIEDE2000.distance lab1 lab2 = CIEDE2000.distance lab2 lab1 := by
  intro l1 l2
  unfold CIEDE2000.distance
  rw [CIEDE2000.delta_E_00_arg_comm l1 l2]

/-- C3: the CIEDE2000 distance of a Lab triple from itself is exactly 0. -/
theorem distance_self : ∀ c : Lab, CIEDE2000.distance c c = 0 := by
  intro c
  have h21 : CIEDE2000.h2_ c c = CIEDE2000.h1_ c c := rfl
  have hdh : CIEDE2000.dh_ c c = 0 := by
    unfold CIEDE2000.dh_
    rw [h21, sub_self]
    split_ifs <;> first | rfl | linarith [Real.pi_pos]
  have hdH : CIEDE2000.dH_ c c = 0 := by
    unfold CIEDE2000.dH_
    rw [hdh]
    norm_num
  have hfL : CIEDE2000.f_L c c = 0 := by
    unfold CIEDE2000.f_L CIEDE2000.dL_
    rw [sub_self, zero_div, zero_div]
  have hfC : CIEDE2000.f_C c c = 0 := by
    unfold CIEDE2000.f_C CIEDE2000.dC_
    rw [show CIEDE2000.C2_ c c = CIEDE2000.C1_ c c from rfl, sub_self, zero_div,
      zero_div]
  have hfH : CIEDE2000.f_H c c = 0 := by
    unfold CIEDE2000.f_H
    rw [hdH, zero_div, zero_div]
  unfold CIEDE2000.distance CIEDE2000.delta_E_00_arg
  rw [hfL, hfC, hfH]
  norm_num

namespace CIEDE2000

theorem C_average__nonneg (l1 l2 : Lab) : 0 ≤ C_average_ l1 l2 := by
  unfold C_average_ C1_ C2_
  positivity

theorem K_25_7_pos : (0 : ℝ) < K_25_7 := by
  unfold K_25_7
  norm_num

theorem R_C_nonneg (l1 l2 : Lab) : 0 ≤ R_C l1 l2 := by
  unfold R_C
  positivity

theorem R_C_le_two (l1 l2 : Lab) : R_C l1 l2 ≤ 2 := by
  unfold R_C
  have hx : 0 ≤ C_average_ l1 l2 ^ 7 := pow_nonneg (C_average__nonneg l1 l2) 7
  have hd : 0 < C_average_ l1 l2 ^ 7 + K_25_7 := by linarith [K_25_7_pos]
  have hr : C_average_ l1 l2 ^ 7 / (C_average_ l1 l2 ^ 7 + K_25_7) ≤ 1 :=
    (div_le_one hd).mpr (by linarith [K_25_7_pos])
  have hs : Real.sqrt (C_average_ l1 l2 ^ 7 / (C_average_ l1 l2 ^ 7 + K_25_7)) ≤ 1 := by
    have := Real.sqrt_le_sqrt hr
    simpa using this
  linarith

theorem R_T_abs_le_two (l1 l2 : Lab) : |R_T l1 l2| ≤ 2 := by
  unfold R_T
  rw [abs_mul, abs_neg]
  calc |Real.sin (dTheta l1 l2 * π / 90)| * |R_C l1 l2|
      ≤ 1 * |R_C l1 l2| :=
        mul_le_mul_of_nonneg_right (Real.abs_sin_le_one _) (abs_nonneg _)
    _ = R_C l1 l2 := by rw [one_mul, abs_of_nonneg (R_C_nonneg l1 l2)]
    _ ≤ 2 := R_C_le_two l1 l2

end CIEDE2000

/-- C5: the CIEDE2000 distance is total on finite real triples: the argument
of the final square root, f_L^2 + f_C^2 + f_H^2 + R_T*f_C*f_H, is
non-negative for every pair of Lab triples, so no math domain error can
occur. -/
theorem delta_E_00_arg_nonneg :
    ∀ lab1 lab2 : Lab, 0 ≤ CIEDE2000.delta_E_00_arg lab1 lab2 := by
  intro l1 l2
  have hR : |CIEDE2000.R_T l1 l2| ≤ 2 := CIEDE2000.R_T_abs_le_two l1 l2
  have h1 : -(2 * |CIEDE2000.f_C l1 l2 * CIEDE2000.f_H l1 l2|) ≤
      CIEDE2000.R_T l1 l2 * (CIEDE2000.f_C l1 l2 * CIEDE2000.f_H l1 l2) := by
    calc -(2 * |CIEDE2000.f_C l1 l2 * CIEDE2000.f_H l1 l2|)
        ≤ -(|CIEDE2000.R_T l1 l2| * |CIEDE2000.f_C l1 l2 * CIEDE2000.f_H l1 l2|) := by
          have := mul_le_mul_of_nonneg_right hR
            (abs_nonneg (CIEDE2000.f_C l1 l2 * CIEDE2000.f_H l1 l2))
          linarith
      _ = -|CIEDE2000.R_T l1 l2 * (CIEDE2000.f_C l1 l2 * CIEDE2000.f_H l1 l2)| := by
          rw [abs_mul (CIEDE2000.R_T l1 l2) (CIEDE2000.f_C l1 l2 * CIEDE2000.f_H l1 l2)]
      _ ≤ CIEDE2000.R_T l1 l2 * (CIEDE2000.f_C l1 l2 * CIEDE2000.f_H l1 l2) :=
          neg_abs_le _
  have h2 : 2 * |CIEDE2000.f_C l1 l2 * CIEDE2000.f_H l1 l2| ≤
      CIEDE2000.f_C l1 l2 ^ 2 + CIEDE2000.f_H l1 l2 ^ 2 := by
    rw [abs_mul]
    nlinarith [sq_nonneg (|CIEDE2000.f_C l1 l2| - |CIEDE2000.f_H l1 l2|),
      sq_abs (CIEDE2000.f_C l1 l2), sq_abs (CIEDE2000.f_H l1 l2),
      abs_nonneg (CIEDE2000.f_C l1 l2), abs_nonneg (CIEDE2000.f_H l1 l2)]
  unfold CIEDE2000.delta_E_00_arg
  nlinarith [sq_nonneg (CIEDE2000.f_L l1 l2)]

theorem neg_pi_lt_atan2 (y x : ℝ) : -π < atan2 y x :=
  Complex.neg_pi_lt_arg _

theorem atan2_le_pi (y x : ℝ) : atan2 y x ≤ π :=
  Complex.arg_le_pi _

theorem abs_atan2_le_pi_div_two (y x : ℝ) (hx : 0 ≤ x) : |atan2 y x| ≤ π / 2 :=
  Complex.abs_arg_le_pi_div_two_iff.mpr hx

namespace CIEDE2000

theorem G_nonneg (l1 l2 : Lab) : 0 ≤ G l1 l2 := by
  unfold G
  have hx : 0 ≤ C_ab_average l1 l2 := by
    unfold C_ab_average C1_ab C2_ab
    positivity
  have h7 : 0 ≤ C_ab_average l1 l2 ^ 7 := pow_nonneg hx 7
  have hd : 0 < C_ab_average l1 l2 ^ 7 + K_25_7 := by linarith [K_25_7_pos]
  have hr : C_ab_average l1 l2 ^ 7 / (C_ab_average l1 l2 ^ 7 + K_25_7) ≤ 1 :=
    (div_le_one hd).mpr (by linarith [K_25_7_pos])
  have hs : Real.sqrt (C_ab_average l1 l2 ^ 7 / (C_ab_average l1 l2 ^ 7 + K_25_7)) ≤ 1 := by
    have := Real.sqrt_le_sqrt hr
    simpa using this
  linarith

theorem h1__bounds (l1 l2 : Lab) : -π < h1_ l1 l2 ∧ h1_ l1 l2 ≤ 5 * π / 2 := by
  unfold h1_
  split_ifs with hb ha
  · exact ⟨by linarith [Real.pi_pos], by linarith [Real.pi_pos]⟩
  · have h := abs_le.mp (abs_atan2_le_pi_div_two l1.b (a1_ l1 l2) ha)
    exact ⟨by linarith [Real.pi_pos, h.1], by linarith [h.2]⟩
  · exact ⟨neg_pi_lt_atan2 _ _, by linarith [Real.pi_pos, atan2_le_pi l1.b (a1_ l1 l2)]⟩

theorem h2__bounds (l1 l2 : Lab) : -π < h2_ l1 l2 ∧ h2_ l1 l2 ≤ 5 * π / 2 := by
  rw [← h1__swap l1 l2]
  exact h1__bounds l2 l1

theorem h1__eq_zero_of_C1__eq_zero (l1 l2 : Lab) (h : C1_ l1 l2 = 0) :
    h1_ l1 l2 = 0 := by
  unfold C1_ at h
  have hnn : 0 ≤ a1_ l1 l2 ^ 2 + l1.b ^ 2 := by positivity
  have hsum : a1_ l1 l2 ^ 2 + l1.b ^ 2 = 0 := (Real.sqrt_eq_zero hnn).mp h
  have ha : a1_ l1 l2 = 0 := by
    have h2 : a1_ l1 l2 ^ 2 = 0 := by nlinarith [sq_nonneg l1.b, sq_nonneg (a1_ l1 l2)]
    exact sq_eq_zero_iff.mp h2
  have hb : l1.b = 0 := by
    have h2 : l1.b ^ 2 = 0 := by nlinarith [sq_nonneg l1.b, sq_nonneg (a1_ l1 l2)]
    exact sq_eq_zero_iff.mp h2
  unfold h1_
  rw [if_pos ⟨hb, ha⟩]

theorem h2__eq_zero_of_C2__eq_zero (l1 l2 : Lab) (h : C2_ l1 l2 = 0) :
    h2_ l1 l2 = 0 := by
  rw [← h1__swap l1 l2]
  exact h1__eq_zero_of_C1__eq_zero l2 l1 (by rw [C1__swap l1 l2]; exact h)

end CIEDE2000

/-- C6 (amended): dh_ is forced to 0 whenever the adjusted chroma product is
zero; otherwise a single addition or subtraction of 2*pi is applied, and the
resulting dh_ always lies in the open interval (-3*pi/2, 3*pi/2).  The
original claim of membership in (-pi, pi] fails because the adjusted hue
angles range over (-pi, 5*pi/2], so one wrap cannot always reach (-pi, pi]. -/
theorem dh_zero_or_bounded :
    ∀ lab1 lab2 : Lab,
      (CIEDE2000.C1_ lab1 lab2 * CIEDE2000.C2_ lab1 lab2 = 0 →
          CIEDE2000.dh_ lab1 lab2 = 0) ∧
        -(3 * π / 2) < CIEDE2000.dh_ lab1 lab2 ∧
          CIEDE2000.dh_ lab1 lab2 < 3 * π / 2 := by
  intro l1 l2
  obtain ⟨ha1, ha2⟩ := CIEDE2000.h1__bounds l1 l2
  obtain ⟨hb1, hb2⟩ := CIEDE2000.h2__bounds l1 l2
  refine ⟨fun h => ?_, ?_⟩
  · unfold CIEDE2000.dh_
    rw [if_pos h]
  · unfold CIEDE2000.dh_
    split_ifs <;> constructor <;> linarith [Real.pi_pos]

/-- C6 witness: the amended statement instantiated at the concrete pair
(50, 2, 3) and (60, 4, 5). -/
theorem dh_zero_or_bounded_witness :
    (CIEDE2000.C1_ ⟨50, 2, 3⟩ ⟨60, 4, 5⟩ * CIEDE2000.C2_ ⟨50, 2, 3⟩ ⟨60, 4, 5⟩ = 0 →
        CIEDE2000.dh_ ⟨50, 2, 3⟩ ⟨60, 4, 5⟩ = 0) ∧
      -(3 * π / 2) < CIEDE2000.dh_ ⟨50, 2, 3⟩ ⟨60, 4, 5⟩ ∧
        CIEDE2000.dh_ ⟨50, 2, 3⟩ ⟨60, 4, 5⟩ < 3 * π / 2 :=
  dh_zero_or_bounded ⟨50, 2, 3⟩ ⟨60, 4, 5⟩

/-- C6 counterexample: at lab1 = (0, -1, -1), lab2 = (0, 0, 1) the adjusted
chroma product is nonzero and the wrapped hue difference dh_ exceeds pi, so
dh_ does not lie in (-pi, pi]. -/
theorem dh_exceeds_pi :
    CIEDE2000.C1_ ⟨0, -1, -1⟩ ⟨0, 0, 1⟩ * CIEDE2000.C2_ ⟨0, -1, -1⟩ ⟨0, 0, 1⟩ ≠ 0 ∧
      π < CIEDE2000.dh_ ⟨0, -1, -1⟩ ⟨0, 0, 1⟩ := by
  have hG : 0 ≤ CIEDE2000.G ⟨0, -1, -1⟩ ⟨0, 0, 1⟩ := CIEDE2000.G_nonneg _ _
  have ha1 : CIEDE2000.a1_ ⟨0, -1, -1⟩ ⟨0, 0, 1⟩ =
      -(1 + CIEDE2000.G ⟨0, -1, -1⟩ ⟨0, 0, 1⟩) := by
    unfold CIEDE2000.a1_
    show (1 + CIEDE2000.G ⟨0, -1, -1⟩ ⟨0, 0, 1⟩) * (-1) = _
    ring
  have ha1neg : CIEDE2000.a1_ ⟨0, -1, -1⟩ ⟨0, 0, 1⟩ < 0 := by
    rw [ha1]
    linarith
  have ha2 : CIEDE2000.a2_ ⟨0, -1, -1⟩ ⟨0, 0, 1⟩ = 0 := by
    unfold CIEDE2000.a2_
    show (1 + CIEDE2000.G ⟨0, -1, -1⟩ ⟨0, 0, 1⟩) * 0 = 0
    ring
  have hh1lt : CIEDE2000.h1_ ⟨0, -1, -1⟩ ⟨0, 0, 1⟩ < -(π / 2) := by
    have hA : ¬((⟨0, -1, -1⟩ : Lab).b = 0 ∧ CIEDE2000.a1_ ⟨0, -1, -1⟩ ⟨0, 0, 1⟩ = 0) := by
      intro h
      have hcontra : (-1 : ℝ) = 0 := h.1
      norm_num at hcontra
    have hB : ¬(0 ≤ CIEDE2000.a1_ ⟨0, -1, -1⟩ ⟨0, 0, 1⟩) := not_le.mpr ha1neg
    unfold CIEDE2000.h1_
    rw [if_neg hA, if_neg hB]
    unfold atan2
    have him : ((⟨CIEDE2000.a1_ ⟨0, -1, -1⟩ ⟨0, 0, 1⟩, (⟨0, -1, -1⟩ : Lab).b⟩ : ℂ)).im < 0 := by
      show (-1 : ℝ) < 0
      norm_num
    have hre : ((⟨CIEDE2000.a1_ ⟨0, -1, -1⟩ ⟨0, 0, 1⟩, (⟨0, -1, -1⟩ : Lab).b⟩ : ℂ)).re < 0 :=
      ha1neg
    have harg0 : ((⟨CIEDE2000.a1_ ⟨0, -1, -1⟩ ⟨0, 0, 1⟩, (⟨0, -1, -1⟩ : Lab).b⟩ : ℂ)).arg < 0 :=
      Complex.arg_neg_iff.mpr him
    have habs : ¬|((⟨CIEDE2000.a1_ ⟨0, -1, -1⟩ ⟨0, 0, 1⟩, (⟨0, -1, -1⟩ : Lab).b⟩ : ℂ)).arg| ≤ π / 2 := by
      rw [Complex.abs_arg_le_pi_div_two_iff]
      exact not_le.mpr hre
    rw [abs_of_neg harg0] at habs
    push_neg at habs
    linarith
  have hh2 : CIEDE2000.h2_ ⟨0, -1, -1⟩ ⟨0, 0, 1⟩ = π / 2 + 2 * π := by
    have hA : ¬((⟨0, 0, 1⟩ : Lab).b = 0 ∧ CIEDE2000.a2_ ⟨0, -1, -1⟩ ⟨0, 0, 1⟩ = 0) := by
      intro h
      have hcontra : (1 : ℝ) = 0 := h.1
      norm_num at hcontra
    unfold CIEDE2000.h2_
    rw [if_neg hA, if_pos (le_of_eq ha2.symm), ha2]
    have hI : atan2 (⟨0, 0, 1⟩ : Lab).b 0 = π / 2 := by
      unfold atan2
      have hz : (⟨(0 : ℝ), (⟨0, 0, 1⟩ : Lab).b⟩ : ℂ) = Complex.I := by
        apply Complex.ext
        · show (0 : ℝ) = Complex.I.re
          simp
        · show (1 : ℝ) = Complex.I.im
          simp
      rw [hz, Complex.arg_I]
    rw [hI]
  have hC1 : 0 < CIEDE2000.C1_ ⟨0, -1, -1⟩ ⟨0, 0, 1⟩ := by
    unfold CIEDE2000.C1_
    apply Real.sqrt_pos.mpr
    have hb : ((⟨0, -1, -1⟩ : Lab).b) = (-1 : ℝ) := rfl
    rw [hb]
    nlinarith [sq_nonneg (CIEDE2000.a1_ ⟨0, -1, -1⟩ ⟨0, 0, 1⟩)]
  have hC2 : 0 < CIEDE2000.C2_ ⟨0, -1, -1⟩ ⟨0, 0, 1⟩ := by
    unfold CIEDE2000.C2_
    apply Real.sqrt_pos.mpr
    have hb : ((⟨0, 0, 1⟩ : Lab).b) = (1 : ℝ) := rfl
    rw [ha2, hb]
    norm_num
  have hprod : CIEDE2000.C1_ ⟨0, -1, -1⟩ ⟨0, 0, 1⟩ * CIEDE2000.C2_ ⟨0, -1, -1⟩ ⟨0, 0, 1⟩ ≠ 0 :=
    (mul_pos hC1 hC2).ne'
  refine ⟨hprod, ?_⟩
  unfold CIEDE2000.dh_
  rw [if_neg hprod, if_pos (by rw [hh2]; linarith [Real.pi_pos, hh1lt]), hh2]
  linarith [Real.pi_pos, hh1lt]

namespace CIEDE2000

theorem h_average__bounds (l1 l2 : Lab) :
    -π < h_average_ l1 l2 ∧ h_average_ l1 l2 ≤ 5 * π / 2 := by
  obtain ⟨ha1, ha2⟩ := h1__bounds l1 l2
  obtain ⟨hb1, hb2⟩ := h2__bounds l1 l2
  by_cases hprod : C1_ l1 l2 * C2_ l1 l2 = 0
  · unfold h_average_
    rw [if_neg (fun h => h.2 hprod), if_neg (fun h => h.2.2 hprod),
      if_neg (fun h => h.2.2 hprod)]
    rcases mul_eq_zero.mp hprod with hC1 | hC2
    · rw [h1__eq_zero_of_C1__eq_zero l1 l2 hC1, zero_add]
      exact h2__bounds l1 l2
    · rw [h2__eq_zero_of_C2__eq_zero l1 l2 hC2, add_zero]
      exact h1__bounds l1 l2
  · unfold h_average_
    split_ifs with hc1 hc2 hc3
    · constructor <;> linarith
    · obtain ⟨habs, hsum, hne⟩ := hc2
      constructor <;> linarith [Real.pi_pos]
    · obtain ⟨habs, hsum, hne⟩ := hc3
      constructor <;> linarith [Real.pi_pos]
    · exfalso
      have hA : ¬(|h1_ l1 l2 - h2_ l1 l2| ≤ π) := fun h => hc1 ⟨h, hprod⟩
      have hS : ¬(h1_ l1 l2 + h2_ l1 l2 < 2 * π) :=
        fun h => hc2 ⟨not_le.mp hA, h, hprod⟩
      exact hc3 ⟨not_le.mp hA, not_lt.mp hS, hprod⟩

end CIEDE2000

/-- C7 (amended): the mean hue angle in degrees, after the single
conditional +360 or -360 correction, lies in the closed interval [0, 360]
for every pair of Lab triples.  The value 360 is attained (see the
counterexample), so the half-open interval [0, 360) of the original claim
is off by the right endpoint. -/
theorem h_average_deg_mem :
    ∀ lab1 lab2 : Lab,
      0 ≤ CIEDE2000.h_average_deg_ lab1 lab2 ∧
        CIEDE2000.h_average_deg_ lab1 lab2 ≤ 360 := by
  intro l1 l2
  obtain ⟨hlo, hhi⟩ := CIEDE2000.h_average__bounds l1 l2
  have hD1 : -(180 : ℝ) < CIEDE2000.h_average_ l1 l2 * 180 / π := by
    rw [lt_div_iff₀ Real.pi_pos]
    linarith
  have hD2 : CIEDE2000.h_average_ l1 l2 * 180 / π ≤ 450 := by
    rw [div_le_iff₀ Real.pi_pos]
    linarith
  unfold CIEDE2000.h_average_deg_
  split_ifs with h1 h2 <;> constructor <;> linarith

/-- C7 counterexample: at the pair lab1 = lab2 = (50, 1, 0) both adjusted
hue angles are exactly 2*pi, so the mean hue angle in degrees is exactly
360 and the conditional corrections do not fire: the result is 360, outside
the half-open interval [0, 360). -/
theorem h_average_deg_eq_360 :
    CIEDE2000.h_average_deg_ ⟨50, 1, 0⟩ ⟨50, 1, 0⟩ = 360 ∧
      ¬ CIEDE2000.h_average_deg_ ⟨50, 1, 0⟩ ⟨50, 1, 0⟩ < 360 := by
  have hG : 0 ≤ CIEDE2000.G ⟨50, 1, 0⟩ ⟨50, 1, 0⟩ := CIEDE2000.G_nonneg _ _
  have ha1 : CIEDE2000.a1_ ⟨50, 1, 0⟩ ⟨50, 1, 0⟩ =
      1 + CIEDE2000.G ⟨50, 1, 0⟩ ⟨50, 1, 0⟩ := by
    unfold CIEDE2000.a1_
    show (1 + CIEDE2000.G ⟨50, 1, 0⟩ ⟨50, 1, 0⟩) * 1 = _
    ring
  have ha1pos : 0 < CIEDE2000.a1_ ⟨50, 1, 0⟩ ⟨50, 1, 0⟩ := by
    rw [ha1]
    linarith
  have hh1 : CIEDE2000.h1_ ⟨50, 1, 0⟩ ⟨50, 1, 0⟩ = 2 * π := by
    have hA : ¬((⟨50, 1, 0⟩ : Lab).b = 0 ∧ CIEDE2000.a1_ ⟨50, 1, 0⟩ ⟨50, 1, 0⟩ = 0) :=
      fun h => absurd h.2 (ne_of_gt ha1pos)
    unfold CIEDE2000.h1_
    rw [if_neg hA, if_pos (le_of_lt ha1pos)]
    have h0 : atan2 (⟨50, 1, 0⟩ : Lab).b (CIEDE2000.a1_ ⟨50, 1, 0⟩ ⟨50, 1, 0⟩) = 0 := by
      unfold atan2
      have hz : (⟨CIEDE2000.a1_ ⟨50, 1, 0⟩ ⟨50, 1, 0⟩, (⟨50, 1, 0⟩ : Lab).b⟩ : ℂ) =
          ((CIEDE2000.a1_ ⟨50, 1, 0⟩ ⟨50, 1, 0⟩ : ℝ) : ℂ) := by
        apply Complex.ext
        · simp
        · show (0 : ℝ) = _
          simp
      rw [hz]
      exact Complex.arg_ofReal_of_nonneg (le_of_lt ha1pos)
    rw [h0, zero_add]
  have hh2 : CIEDE2000.h2_ ⟨50, 1, 0⟩ ⟨50, 1, 0⟩ = 2 * π := by
    rw [show CIEDE2000.h2_ ⟨50, 1, 0⟩ ⟨50, 1, 0⟩ = CIEDE2000.h1_ ⟨50, 1, 0⟩ ⟨50, 1, 0⟩
      from rfl, hh1]
  have hC1 : 0 < CIEDE2000.C1_ ⟨50, 1, 0⟩ ⟨50, 1, 0⟩ := by
    unfold CIEDE2000.C1_
    apply Real.sqrt_pos.mpr
    nlinarith [ha1pos, sq_nonneg ((⟨50, 1, 0⟩ : Lab).b)]
  have hprod : CIEDE2000.C1_ ⟨50, 1, 0⟩ ⟨50, 1, 0⟩ * CIEDE2000.C2_ ⟨50, 1, 0⟩ ⟨50, 1, 0⟩ ≠ 0 := by
    have hC2 : 0 < CIEDE2000.C2_ ⟨50, 1, 0⟩ ⟨50, 1, 0⟩ := by
      rw [show CIEDE2000.C2_ ⟨50, 1, 0⟩ ⟨50, 1, 0⟩ = CIEDE2000.C1_ ⟨50, 1, 0⟩ ⟨50, 1, 0⟩
        from rfl]
      exact hC1
    exact (mul_pos hC1 hC2).ne'
  have hha : CIEDE2000.h_average_ ⟨50, 1, 0⟩ ⟨50, 1, 0⟩ = 2 * π := by
    unfold CIEDE2000.h_average_
    rw [if_pos ⟨by rw [hh1, hh2, sub_self, abs_zero]; exact Real.pi_pos.le, hprod⟩]
    rw [hh1, hh2]
    ring
  have hD : CIEDE2000.h_average_ ⟨50, 1, 0⟩ ⟨50, 1, 0⟩ * 180 / π = 360 := by
    rw [hha, div_eq_iff Real.pi_ne_zero]
    ring
  have hmain : CIEDE2000.h_average_deg_ ⟨50, 1, 0⟩ ⟨50, 1, 0⟩ = 360 := by
    unfold CIEDE2000.h_average_deg_
    rw [hD]
    rw [if_neg (by norm_num), if_neg (by norm_num)]
  exact ⟨hmain, by rw [hmain]; exact lt_irrefl _⟩

/-- C8: when both inputs are achromatic (a = b = 0), the distance is the
pure lightness-driven difference with absolute value of the lightness gap
over S_L; in particular the distance from (50, 0, 0) to (60, 0, 0) equals
10 / (1 + 0.015 * (55 - 50)^2 / sqrt (20 + (55 - 50)^2)). -/
theorem distance_achromatic :
    (∀ L1 L2 : ℝ,
        CIEDE2000.distance ⟨L1, 0, 0⟩ ⟨L2, 0, 0⟩ =
          |L2 - L1| /
            (1 + 0.015 * ((L1 + L2) / 2 - 50) ^ 2 /
              Real.sqrt (20 + ((L1 + L2) / 2 - 50) ^ 2))) ∧
      CIEDE2000.distance ⟨50, 0, 0⟩ ⟨60, 0, 0⟩ =
        10 / (1 + 0.015 * (55 - 50) ^ 2 / Real.sqrt (20 + (55 - 50) ^ 2)) := by
  have main : ∀ L1 L2 : ℝ,
      CIEDE2000.distance ⟨L1, 0, 0⟩ ⟨L2, 0, 0⟩ =
        |L2 - L1| /
          (1 + 0.015 * ((L1 + L2) / 2 - 50) ^ 2 /
            Real.sqrt (20 + ((L1 + L2) / 2 - 50) ^ 2)) := by
    intro L1 L2
    have ha1 : CIEDE2000.a1_ ⟨L1, 0, 0⟩ ⟨L2, 0, 0⟩ = 0 := by
      unfold CIEDE2000.a1_
      show (1 + CIEDE2000.G ⟨L1, 0, 0⟩ ⟨L2, 0, 0⟩) * 0 = 0
      ring
    have ha2 : CIEDE2000.a2_ ⟨L1, 0, 0⟩ ⟨L2, 0, 0⟩ = 0 := by
      unfold CIEDE2000.a2_
      show (1 + CIEDE2000.G ⟨L1, 0, 0⟩ ⟨L2, 0, 0⟩) * 0 = 0
      ring
    have hC1 : CIEDE2000.C1_ ⟨L1, 0, 0⟩ ⟨L2, 0, 0⟩ = 0 := by
      unfold CIEDE2000.C1_
      rw [ha1]
      show Real.sqrt ((0 : ℝ) ^ 2 + (0 : ℝ) ^ 2) = 0
      rw [show (0 : ℝ) ^ 2 + (0 : ℝ) ^ 2 = 0 by norm_num, Real.sqrt_zero]
    have hC2 : CIEDE2000.C2_ ⟨L1, 0, 0⟩ ⟨L2, 0, 0⟩ = 0 := by
      unfold CIEDE2000.C2_
      rw [ha2]
      show Real.sqrt ((0 : ℝ) ^ 2 + (0 : ℝ) ^ 2) = 0
      rw [show (0 : ℝ) ^ 2 + (0 : ℝ) ^ 2 = 0 by norm_num, Real.sqrt_zero]
    have hprod : CIEDE2000.C1_ ⟨L1, 0, 0⟩ ⟨L2, 0, 0⟩ * CIEDE2000.C2_ ⟨L1, 0, 0⟩ ⟨L2, 0, 0⟩ = 0 := by
      rw [hC1]
      exact zero_mul _
    have hdh : CIEDE2000.dh_ ⟨L1, 0, 0⟩ ⟨L2, 0, 0⟩ = 0 := by
      unfold CIEDE2000.dh_
      rw [if_pos hprod]
    have hdH : CIEDE2000.dH_ ⟨L1, 0, 0⟩ ⟨L2, 0, 0⟩ = 0 := by
      unfold CIEDE2000.dH_
      rw [hdh]
      simp
    have hdC : CIEDE2000.dC_ ⟨L1, 0, 0⟩ ⟨L2, 0, 0⟩ = 0 := by
      unfold CIEDE2000.dC_
      rw [hC1, hC2, sub_self]
    have hCavg : CIEDE2000.C_average_ ⟨L1, 0, 0⟩ ⟨L2, 0, 0⟩ = 0 := by
      unfold CIEDE2000.C_average_
      rw [hC1, hC2]
      norm_num
    have hSC : CIEDE2000.S_C ⟨L1, 0, 0⟩ ⟨L2, 0, 0⟩ = 1 := by
      unfold CIEDE2000.S_C
      rw [hCavg]
      norm_num
    have hSH : CIEDE2000.S_H ⟨L1, 0, 0⟩ ⟨L2, 0, 0⟩ = 1 := by
      unfold CIEDE2000.S_H
      rw [hCavg]
      ring
    have hfC : CIEDE2000.f_C ⟨L1, 0, 0⟩ ⟨L2, 0, 0⟩ = 0 := by
      unfold CIEDE2000.f_C
      rw [hdC]
      simp
    have hfH : CIEDE2000.f_H ⟨L1, 0, 0⟩ ⟨L2, 0, 0⟩ = 0 := by
      unfold CIEDE2000.f_H
      rw [hdH]
      simp
    have hSLpos : 0 < CIEDE2000.S_L ⟨L1, 0, 0⟩ ⟨L2, 0, 0⟩ := by
      unfold CIEDE2000.S_L CIEDE2000.L_50
      positivity
    have hfL : CIEDE2000.f_L ⟨L1, 0, 0⟩ ⟨L2, 0, 0⟩ =
        (L2 - L1) / CIEDE2000.S_L ⟨L1, 0, 0⟩ ⟨L2, 0, 0⟩ := by
      unfold CIEDE2000.f_L CIEDE2000.k_L CIEDE2000.dL_
      show ((L2 : ℝ) - L1) / 1 / CIEDE2000.S_L ⟨L1, 0, 0⟩ ⟨L2, 0, 0⟩ = _
      rw [div_one]
    have hSL : CIEDE2000.S_L ⟨L1, 0, 0⟩ ⟨L2, 0, 0⟩ =
        1 + 0.015 * ((L1 + L2) / 2 - 50) ^ 2 /
          Real.sqrt (20 + ((L1 + L2) / 2 - 50) ^ 2) := rfl
    unfold CIEDE2000.distance CIEDE2000.delta_E_00_arg
    rw [hfC, hfH, hfL]
    rw [show ((L2 - L1) / CIEDE2000.S_L ⟨L1, 0, 0⟩ ⟨L2, 0, 0⟩) ^ 2 + (0 : ℝ) ^ 2 +
        (0 : ℝ) ^ 2 + CIEDE2000.R_T ⟨L1, 0, 0⟩ ⟨L2, 0, 0⟩ * 0 * 0 =
        ((L2 - L1) / CIEDE2000.S_L ⟨L1, 0, 0⟩ ⟨L2, 0, 0⟩) ^ 2 from by ring]
    rw [Real.sqrt_sq_eq_abs, abs_div, abs_of_pos hSLpos, hSL]
  refine ⟨main, ?_⟩
  rw [main 50 60]
  norm_num
